import Mathlib

/-!
Shallow embedding of `src/inference_calculator.py` (LLM Inference Calculator).

All Python arithmetic in the calculator is over literals and integer inputs;
we embed it over `ℚ` so every formula is exact.  Token counts and batch sizes
are Python ints, embedded as `ℤ`.
-/

namespace LLMCalc

/-- Supported model sizes (`ModelSize` enum). -/
inductive ModelSize
  | SEVEN_B
  | THIRTEEN_B
  | GPT4
deriving DecidableEq, Repr

/-- Supported hardware types (`HardwareType` enum). -/
inductive HardwareType
  | CPU
  | GPU_4GB
  | GPU_8GB
  | GPU_12GB
  | GPU_16GB
  | GPU_24GB
  | GPU_32GB
deriving DecidableEq, Repr

/-- Deployment modes (`DeploymentMode` enum). -/
inductive DeploymentMode
  | LOCAL
  | API
deriving DecidableEq, Repr

/-- `ModelSpecs` dataclass. -/
structure ModelSpecs where
  parameters : ℤ
  layers : ℤ
  heads : ℤ
  head_dim : ℤ
  context_length : ℤ
  vocabulary_size : ℤ
deriving DecidableEq, Repr

/-- `HardwareSpecs` dataclass. -/
structure HardwareSpecs where
  vram_gb : ℚ
  memory_bandwidth_gbps : ℚ
  compute_flops : ℚ
  power_watts : ℚ
  cost_usd : ℚ
deriving DecidableEq, Repr

/-- `CalculationResult` dataclass. -/
structure CalculationResult where
  latency_seconds : ℚ
  memory_usage_gb : ℚ
  cost_per_request_usd : ℚ
  hardware_compatible : Bool
  recommendations : List String
deriving DecidableEq, Repr

/-- `self.model_specs` table from `LLMInferenceCalculator.__init__`. -/
def model_specs : ModelSize → ModelSpecs
  | .SEVEN_B => ⟨7300000000, 32, 32, 128, 8192, 32000⟩
  | .THIRTEEN_B => ⟨13000000000, 40, 40, 128, 4096, 32000⟩
  | .GPT4 => ⟨1760000000000, 96, 96, 128, 8192, 100000⟩

/-- `self.hardware_specs` table from `LLMInferenceCalculator.__init__`. -/
def hardware_specs : HardwareType → HardwareSpecs
  | .CPU => ⟨0, 50, 100000000000, 65, 200⟩
  | .GPU_4GB => ⟨4, 112, 2000000000000, 75, 150⟩
  | .GPU_8GB => ⟨8, 448, 20000000000000, 220, 500⟩
  | .GPU_12GB => ⟨12, 504, 30000000000000, 320, 700⟩
  | .GPU_16GB => ⟨16, 760, 40000000000000, 320, 1200⟩
  | .GPU_24GB => ⟨24, 1008, 83000000000000, 450, 1600⟩
  | .GPU_32GB => ⟨32, 1008, 83000000000000, 450, 1600⟩

/-- One entry of `self.api_pricing` (a dict with keys "input"/"output"). -/
structure ApiPrice where
  input : ℚ
  output : ℚ
deriving DecidableEq, Repr

/-- `self.api_pricing` table (USD per 1000 tokens). -/
def api_pricing : ModelSize → ApiPrice
  | .SEVEN_B => ⟨0, 0⟩
  | .THIRTEEN_B => ⟨2/10000, 4/10000⟩
  | .GPT4 => ⟨1/100, 3/100⟩

/-- `self.performance_baselines` table (tokens per second). -/
def performance_baselines : ModelSize → HardwareType → ℚ
  | .SEVEN_B, .CPU => 3
  | .SEVEN_B, .GPU_4GB => 8
  | .SEVEN_B, .GPU_8GB => 15
  | .SEVEN_B, .GPU_12GB => 25
  | .SEVEN_B, .GPU_16GB => 35
  | .SEVEN_B, .GPU_24GB => 45
  | .SEVEN_B, .GPU_32GB => 50
  | .THIRTEEN_B, .CPU => 1
  | .THIRTEEN_B, .GPU_4GB => 3
  | .THIRTEEN_B, .GPU_8GB => 6
  | .THIRTEEN_B, .GPU_12GB => 10
  | .THIRTEEN_B, .GPU_16GB => 15
  | .THIRTEEN_B, .GPU_24GB => 25
  | .THIRTEEN_B, .GPU_32GB => 30
  | .GPT4, .CPU => 1/10
  | .GPT4, .GPU_4GB => 1/10
  | .GPT4, .GPU_8GB => 1/10
  | .GPT4, .GPU_12GB => 1/10
  | .GPT4, .GPU_16GB => 1/10
  | .GPT4, .GPU_24GB => 1/10
  | .GPT4, .GPU_32GB => 1/10

/-- `LLMInferenceCalculator.calculate_memory_usage`.  Python floats `1.2` and
`0.1` are the exact rationals `12/10` and `1/10`. -/
def calculate_memory_usage (model_size : ModelSize) (tokens batch_size : ℤ)
    (_hardware_type : HardwareType) : ℚ :=
  let specs := model_specs model_size
  let model_memory_gb : ℚ := ((specs.parameters : ℚ) * 2) / 1024 ^ 3
  let kv_cache_bytes : ℚ :=
    2 * (specs.layers : ℚ) * (specs.heads : ℚ) * (specs.head_dim : ℚ) *
      ((min tokens specs.context_length : ℤ) : ℚ) * (batch_size : ℚ) * 2
  let kv_cache_gb : ℚ := kv_cache_bytes / 1024 ^ 3
  let activation_memory_gb : ℚ :=
    ((tokens : ℚ) * (specs.parameters : ℚ) * 2) / 1024 ^ 3 * (1/10)
  let total_memory := model_memory_gb + kv_cache_gb + activation_memory_gb
  total_memory * (12/10)

/-- `LLMInferenceCalculator.calculate_latency`. -/
def calculate_latency (model_size : ModelSize) (tokens _batch_size : ℤ)
    (hardware_type : HardwareType) (deployment_mode : DeploymentMode) : ℚ :=
  match deployment_mode with
  | .API =>
    let base_latency : ℚ := 2
    let processing_time : ℚ := (tokens : ℚ) / 50
    base_latency + processing_time
  | .LOCAL =>
    let tokens_per_sec := performance_baselines model_size hardware_type
    let compute_time := (tokens : ℚ) / tokens_per_sec
    let memory_overhead : ℚ := 1/10
    compute_time * (1 + memory_overhead)

/-- `LLMInferenceCalculator.calculate_cost`. -/
def calculate_cost (model_size : ModelSize) (tokens batch_size : ℤ)
    (hardware_type : HardwareType) (deployment_mode : DeploymentMode) : ℚ :=
  match deployment_mode with
  | .API =>
    let pricing := api_pricing model_size
    let input_tokens : ℚ := (tokens : ℚ) * (7/10)
    let output_tokens : ℚ := (tokens : ℚ) * (3/10)
    let input_cost := (input_tokens / 1000) * pricing.input
    let output_cost := (output_tokens / 1000) * pricing.output
    input_cost + output_cost
  | .LOCAL =>
    let hardware := hardware_specs hardware_type
    let latency := calculate_latency model_size tokens batch_size hardware_type .LOCAL
    let hardware_cost_per_hour := hardware.cost_usd / (3 * 365 * 8)
    let electricity_cost_per_hour := (hardware.power_watts / 1000) * (12/100)
    let total_cost_per_hour := hardware_cost_per_hour + electricity_cost_per_hour
    (total_cost_per_hour / 3600) * latency

/-- `LLMInferenceCalculator.check_hardware_compatibility`. -/
def check_hardware_compatibility (model_size : ModelSize)
    (hardware_type : HardwareType) : Bool :=
  if hardware_type = .CPU then
    true
  else
    let required_memory := calculate_memory_usage model_size 2048 1 hardware_type
    let available_memory := (hardware_specs hardware_type).vram_gb
    decide (available_memory ≥ required_memory)

/-- `LLMInferenceCalculator.generate_recommendations`. -/
def generate_recommendations (model_size : ModelSize) (tokens batch_size : ℤ)
    (hardware_type : HardwareType) (deployment_mode : DeploymentMode) :
    List String :=
  let modeRecs : List String :=
    match deployment_mode with
    | .LOCAL =>
      (if check_hardware_compatibility model_size hardware_type then []
       else ["Hardware incompatible - consider GPU with more VRAM"]) ++
      (if hardware_type = .CPU ∧ model_size ≠ .SEVEN_B then
        ["CPU inference will be very slow for this model size"] else []) ++
      (if tokens > 2048 then ["Long sequences may cause memory issues"] else [])
    | .API =>
      (if model_size = .GPT4 ∧ tokens > 1000 then
        ["GPT-4 costs can be high for long sequences"] else []) ++
      (if batch_size > 1 then
        ["API deployment typically doesn\x27t support batching"] else [])
  modeRecs ++
  (if batch_size > 4 then ["Large batch sizes may cause memory issues"] else []) ++
  (if tokens > 4096 then ["Consider chunking long sequences"] else [])

/-- `ModelSize(model_size)` string conversion in `calculate`. -/
def parseModelSize : String → Option ModelSize
  | "7B" => some .SEVEN_B
  | "13B" => some .THIRTEEN_B
  | "GPT-4" => some .GPT4
  | _ => none

/-- `HardwareType(hardware_type)` string conversion in `calculate`. -/
def parseHardwareType : String → Option HardwareType
  | "CPU" => some .CPU
  | "GPU_4GB" => some .GPU_4GB
  | "GPU_8GB" => some .GPU_8GB
  | "GPU_12GB" => some .GPU_12GB
  | "GPU_16GB" => some .GPU_16GB
  | "GPU_24GB" => some .GPU_24GB
  | "GPU_32GB" => some .GPU_32GB
  | _ => none

/-- `DeploymentMode(deployment_mode)` string conversion in `calculate`. -/
def parseDeploymentMode : String → Option DeploymentMode
  | "local" => some .LOCAL
  | "api" => some .API
  | _ => none

/-- `LLMInferenceCalculator.calculate`.  A raised `ValueError` is embedded as
`Except.error` carrying the message; the enum conversions are attempted in
source order (model, hardware, deployment) inside one `try`, so the first
failure determines the message, then the numeric validations run. -/
def calculate (model_size : String) (tokens batch_size : ℤ)
    (hardware_type deployment_mode : String) :
    Except String CalculationResult :=
  match parseModelSize model_size with
  | none =>
    .error ("Invalid input parameter: " ++ model_size ++ " is not a valid ModelSize")
  | some model_enum =>
  match parseHardwareType hardware_type with
  | none =>
    .error ("Invalid input parameter: " ++ hardware_type ++ " is not a valid HardwareType")
  | some hardware_enum =>
  match parseDeploymentMode deployment_mode with
  | none =>
    .error ("Invalid input parameter: " ++ deployment_mode ++ " is not a valid DeploymentMode")
  | some deployment_enum =>
  if tokens ≤ 0 then
    .error "Tokens must be positive"
  else if batch_size ≤ 0 then
    .error "Batch size must be positive"
  else
    .ok
      { latency_seconds :=
          calculate_latency model_enum tokens batch_size hardware_enum deployment_enum
        memory_usage_gb :=
          calculate_memory_usage model_enum tokens batch_size hardware_enum
        cost_per_request_usd :=
          calculate_cost model_enum tokens batch_size hardware_enum deployment_enum
        hardware_compatible :=
          check_hardware_compatibility model_enum hardware_enum
        recommendations :=
          generate_recommendations model_enum tokens batch_size hardware_enum deployment_enum }

/-- Memory formula as the spec states it for C1 (claim-side definition, to be
compared with `calculate_memory_usage`): model, KV-cache and activation terms
summed, divided by `2 ^ 30`, times the `1.2` safety margin. -/
def memorySpecFormula (ms : ModelSize) (t b : ℤ) : ℚ :=
  let s := model_specs ms
  (((s.parameters : ℚ) * 2) +
   (2 * (s.layers : ℚ) * (s.heads : ℚ) * (s.head_dim : ℚ) *
     ((min t s.context_length : ℤ) : ℚ) * (b : ℚ) * 2) +
   ((t : ℚ) * (s.parameters : ℚ) * 2 * (1/10))) / 2 ^ 30 * (12/10)

/-- Recommendation rule list in the order and with the guards the spec gives
for C8 (claim-side definition, to be compared with
`generate_recommendations`). -/
def recommendationRules (ms : ModelSize) (t b : ℤ) (ht : HardwareType)
    (dm : DeploymentMode) : List String :=
  (if dm = .LOCAL ∧ check_hardware_compatibility ms ht = false then
    ["Hardware incompatible - consider GPU with more VRAM"] else []) ++
  (if dm = .LOCAL ∧ ht = .CPU ∧ ms ≠ .SEVEN_B then
    ["CPU inference will be very slow for this model size"] else []) ++
  (if dm = .LOCAL ∧ t > 2048 then
    ["Long sequences may cause memory issues"] else []) ++
  (if dm = .API ∧ ms = .GPT4 ∧ t > 1000 then
    ["GPT-4 costs can be high for long sequences"] else []) ++
  (if dm = .API ∧ b > 1 then
    ["API deployment typically doesn\x27t support batching"] else []) ++
  (if b > 4 then ["Large batch sizes may cause memory issues"] else []) ++
  (if t > 4096 then ["Consider chunking long sequences"] else [])

/-- C1: for every supported model, positive token count and positive batch
size, `calculate_memory_usage` equals the spec formula (with the token count
clamped to the context length in the KV-cache term only, the raw token count
in the activation term), and the hardware argument does not affect it. -/
theorem c1_memory_formula (ms : ModelSize) (t b : ℤ) (ht ht2 : HardwareType)
    (htp : 0 < t) (hb : 0 < b) :
    calculate_memory_usage ms t b ht = memorySpecFormula ms t b ∧
    calculate_memory_usage ms t b ht = calculate_memory_usage ms t b ht2 := by
  refine ⟨?_, rfl⟩
  simp only [calculate_memory_usage, memorySpecFormula]
  norm_num
  ring

/-- Witness for C1 at model 7B, 3000 tokens, batch size 2. -/
theorem c1_memory_formula_witness :
    calculate_memory_usage .SEVEN_B 3000 2 .CPU = memorySpecFormula .SEVEN_B 3000 2 ∧
    calculate_memory_usage .SEVEN_B 3000 2 .CPU =
      calculate_memory_usage .SEVEN_B 3000 2 .GPU_32GB :=
  c1_memory_formula .SEVEN_B 3000 2 .CPU .GPU_32GB (by decide) (by decide)

/-- C2: for positive token counts, API latency is `2 + t / 50` independently
of model, hardware and batch size, and LOCAL latency is
`(t / baseline) * 1.1` with the baseline from `performance_baselines`. -/
theorem c2_latency_formula (ms : ModelSize) (t b : ℤ) (ht : HardwareType)
    (htp : 0 < t) :
    calculate_latency ms t b ht .API = 2 + (t : ℚ) / 50 ∧
    calculate_latency ms t b ht .LOCAL =
      ((t : ℚ) / performance_baselines ms ht) * (11/10) := by
  constructor
  · rfl
  · simp only [calculate_latency]
    ring

/-- Witness for C2 at model 13B, 500 tokens, batch size 3, GPU_12GB. -/
theorem c2_latency_formula_witness :
    calculate_latency .THIRTEEN_B 500 3 .GPU_12GB .API = 2 + (500 : ℚ) / 50 ∧
    calculate_latency .THIRTEEN_B 500 3 .GPU_12GB .LOCAL =
      ((500 : ℚ) / performance_baselines .THIRTEEN_B .GPU_12GB) * (11/10) :=
  c2_latency_formula .THIRTEEN_B 500 3 .GPU_12GB (by decide)

/-- C3: for positive token counts, API cost is the 70/30 split priced from
`api_pricing`, and LOCAL cost is the amortized hardware-plus-electricity
hourly rate divided by 3600, times the latency of the same request. -/
theorem c3_cost_formula (ms : ModelSize) (t b : ℤ) (ht : HardwareType)
    (htp : 0 < t) (hb : 0 < b) :
    calculate_cost ms t b ht .API =
      ((t : ℚ) * (7/10) / 1000) * (api_pricing ms).input +
      ((t : ℚ) * (3/10) / 1000) * (api_pricing ms).output ∧
    calculate_cost ms t b ht .LOCAL =
      (((hardware_specs ht).cost_usd / (3 * 365 * 8) +
        ((hardware_specs ht).power_watts / 1000) * (12/100)) / 3600) *
        calculate_latency ms t b ht .LOCAL := by
  exact ⟨rfl, rfl⟩

/-- Witness for C3 at model GPT-4, 2000 tokens, batch size 1, GPU_24GB. -/
theorem c3_cost_formula_witness :
    calculate_cost .GPT4 2000 1 .GPU_24GB .API =
      ((2000 : ℚ) * (7/10) / 1000) * (api_pricing .GPT4).input +
      ((2000 : ℚ) * (3/10) / 1000) * (api_pricing .GPT4).output ∧
    calculate_cost .GPT4 2000 1 .GPU_24GB .LOCAL =
      (((hardware_specs .GPU_24GB).cost_usd / (3 * 365 * 8) +
        ((hardware_specs .GPU_24GB).power_watts / 1000) * (12/100)) / 3600) *
        calculate_latency .GPT4 2000 1 .GPU_24GB .LOCAL :=
  c3_cost_formula .GPT4 2000 1 .GPU_24GB (by decide) (by decide)

lemma memory_batch_diff (ms : ModelSize) (t b1 b2 : ℤ) (ht : HardwareType) :
    calculate_memory_usage ms t b2 ht - calculate_memory_usage ms t b1 ht =
      (2 * ((model_specs ms).layers : ℚ) * ((model_specs ms).heads : ℚ) *
        ((model_specs ms).head_dim : ℚ) *
        ((min t (model_specs ms).context_length : ℤ) : ℚ) * 2 / 1024 ^ 3 *
        (12/10)) * ((b2 : ℚ) - (b1 : ℚ)) := by
  simp only [calculate_memory_usage]
  ring

lemma memory_strictMono_batch (ms : ModelSize) (t b1 b2 : ℤ) (ht : HardwareType)
    (htp : 0 < t) (hb : b1 < b2) :
    calculate_memory_usage ms t b1 ht < calculate_memory_usage ms t b2 ht := by
  have hmin : 0 < min t (model_specs ms).context_length := by
    cases ms <;> simp only [model_specs] <;> omega
  have hminQ : (0 : ℚ) < ((min t (model_specs ms).context_length : ℤ) : ℚ) := by
    exact_mod_cast hmin
  have hbQ : (b2 : ℚ) - (b1 : ℚ) > 0 := by
    have : (b1 : ℚ) < (b2 : ℚ) := by exact_mod_cast hb
    linarith
  have hd := memory_batch_diff ms t b1 b2 ht
  have hcoeff : (0 : ℚ) <
      2 * ((model_specs ms).layers : ℚ) * ((model_specs ms).heads : ℚ) *
        ((model_specs ms).head_dim : ℚ) *
        ((min t (model_specs ms).context_length : ℤ) : ℚ) * 2 / 1024 ^ 3 *
        (12/10) := by
    cases ms <;> simp only [model_specs] at hminQ ⊢ <;> nlinarith [hminQ]
  nlinarith [mul_pos hcoeff hbQ]

/-- C4: hardware compatibility depends only on the model/hardware pair: it is
true for CPU for every model, and for non-CPU hardware it is true exactly when
the VRAM is at least the memory usage of the fixed 2048-token, batch-1 probe;
consequently `calculate` on LOCAL mode with batch 1 yields the same
`hardware_compatible` for any two positive token counts. -/
theorem c4_compatibility_probe (ms : ModelSize) (ht : HardwareType)
    (m h : String) (X Y : ℤ) (hX : 0 < X) (hY : 0 < Y) :
    check_hardware_compatibility ms .CPU = true ∧
    (ht ≠ .CPU → (check_hardware_compatibility ms ht = true ↔
      (hardware_specs ht).vram_gb ≥ calculate_memory_usage ms 2048 1 ht)) ∧
    (calculate m X 1 h "local").map CalculationResult.hardware_compatible =
      (calculate m Y 1 h "local").map CalculationResult.hardware_compatible := by
  refine ⟨rfl, ?_, ?_⟩
  · intro hne
    simp [check_hardware_compatibility, hne]
  · match hm : parseModelSize m with
    | none => simp [calculate, hm, Except.map]
    | some me =>
      match hh : parseHardwareType h with
      | none => simp [calculate, hm, hh, Except.map]
      | some he =>
        simp [calculate, hm, hh, parseDeploymentMode, Except.map,
          show ¬(X ≤ 0) by omega, show ¬(Y ≤ 0) by omega,
          show ¬((1 : ℤ) ≤ 0) by norm_num]

/-- Witness for C4 at model 7B on GPU_16GB, with token counts 5 and 9000. -/
theorem c4_compatibility_probe_witness :
    check_hardware_compatibility .SEVEN_B .CPU = true ∧
    (HardwareType.GPU_16GB ≠ HardwareType.CPU →
      (check_hardware_compatibility .SEVEN_B .GPU_16GB = true ↔
        (hardware_specs .GPU_16GB).vram_gb ≥
          calculate_memory_usage .SEVEN_B 2048 1 .GPU_16GB)) ∧
    (calculate "7B" 5 1 "GPU_16GB" "local").map CalculationResult.hardware_compatible =
      (calculate "7B" 9000 1 "GPU_16GB" "local").map CalculationResult.hardware_compatible :=
  c4_compatibility_probe .SEVEN_B .GPU_16GB "7B" "GPU_16GB" 5 9000
    (by decide) (by decide)

/-- C5: evaluating the code at the spec scenario
`calculate("7B", 1000, 1, "GPU_16GB", "local")`: the latency is
`1000 / 35 * 1.1` as claimed, but `hardware_compatible` is `false`, because
the 2048-token probe memory (about 3359 GB, dominated by the activation term)
exceeds 16 GB. -/
theorem c5_scenario_evaluation :
    (calculate "7B" 1000 1 "GPU_16GB" "local").map
      (fun r => (r.hardware_compatible, r.latency_seconds)) =
    .ok (false, 1000 / 35 * (11/10)) := by
  simp [calculate, parseModelSize, parseHardwareType, parseDeploymentMode,
    Except.map, check_hardware_compatibility, calculate_memory_usage,
    model_specs, hardware_specs, calculate_latency, performance_baselines]
  norm_num

/-- C6 counterexample: two calls differing only in batch size (1 versus 2)
return different `memory_usage_gb`, because the KV-cache term of
`calculate_memory_usage` is multiplied by the batch size. -/
theorem c6_batch_counterexample :
    (calculate "7B" 1000 1 "GPU_8GB" "local").map CalculationResult.memory_usage_gb ≠
    (calculate "7B" 1000 2 "GPU_8GB" "local").map CalculationResult.memory_usage_gb := by
  simp [calculate, parseModelSize, parseHardwareType, parseDeploymentMode,
    Except.map, calculate_memory_usage, model_specs]
  norm_num

/-- C6 amended: batch size has no effect on latency or cost, and the
recommendations depend on it only through the two thresholds `> 1` (API rule)
and `> 4`; but memory usage strictly increases with batch size, through the
KV-cache term. -/
theorem c6_batch_effects (ms : ModelSize) (t b1 b2 : ℤ) (ht : HardwareType)
    (dm : DeploymentMode) (htp : 0 < t) (hb1 : 0 < b1) (hb2 : 0 < b2) :
    calculate_latency ms t b1 ht dm = calculate_latency ms t b2 ht dm ∧
    calculate_cost ms t b1 ht dm = calculate_cost ms t b2 ht dm ∧
    ((b1 > 1 ↔ b2 > 1) → (b1 > 4 ↔ b2 > 4) →
      generate_recommendations ms t b1 ht dm = generate_recommendations ms t b2 ht dm) ∧
    (b1 < b2 → calculate_memory_usage ms t b1 ht < calculate_memory_usage ms t b2 ht) := by
  refine ⟨by cases dm <;> rfl, by cases dm <;> rfl, ?_, fun hlt =>
    memory_strictMono_batch ms t b1 b2 ht htp hlt⟩
  intro h1 h4
  have e4 : (if b1 > 4 then ["Large batch sizes may cause memory issues"]
      else ([] : List String)) =
      (if b2 > 4 then ["Large batch sizes may cause memory issues"] else []) :=
    if_congr h4 rfl rfl
  have e1 : (if b1 > 1 then ["API deployment typically doesn\x27t support batching"]
      else ([] : List String)) =
      (if b2 > 1 then ["API deployment typically doesn\x27t support batching"] else []) :=
    if_congr h1 rfl rfl
  cases dm <;> simp only [generate_recommendations, e4, e1]

/-- Witness for C6 amended, at model 7B, 1000 tokens, batch sizes 2 and 3. -/
theorem c6_batch_effects_witness :
    calculate_latency .SEVEN_B 1000 2 .GPU_8GB .LOCAL =
      calculate_latency .SEVEN_B 1000 3 .GPU_8GB .LOCAL ∧
    calculate_cost .SEVEN_B 1000 2 .GPU_8GB .LOCAL =
      calculate_cost .SEVEN_B 1000 3 .GPU_8GB .LOCAL ∧
    (((2 : ℤ) > 1 ↔ (3 : ℤ) > 1) → ((2 : ℤ) > 4 ↔ (3 : ℤ) > 4) →
      generate_recommendations .SEVEN_B 1000 2 .GPU_8GB .LOCAL =
        generate_recommendations .SEVEN_B 1000 3 .GPU_8GB .LOCAL) ∧
    ((2 : ℤ) < 3 → calculate_memory_usage .SEVEN_B 1000 2 .GPU_8GB <
      calculate_memory_usage .SEVEN_B 1000 3 .GPU_8GB) :=
  c6_batch_effects .SEVEN_B 1000 2 3 .GPU_8GB .LOCAL
    (by decide) (by decide) (by decide)

/-- C7: `calculate` succeeds exactly when the model, hardware and deployment
strings parse and the token count and batch size are positive; each failing
field alone produces the error naming that field, before any calculation. -/
theorem c7_input_validation (m h d : String) (t b : ℤ) :
    ((calculate m t b h d).isOk ↔
      (parseModelSize m).isSome ∧ (parseHardwareType h).isSome ∧
      (parseDeploymentMode d).isSome ∧ 0 < t ∧ 0 < b) ∧
    calculate "70B" 100 1 "GPU_8GB" "local" =
      .error "Invalid input parameter: 70B is not a valid ModelSize" ∧
    calculate "7B" 100 1 "TPU" "local" =
      .error "Invalid input parameter: TPU is not a valid HardwareType" ∧
    calculate "7B" 100 1 "GPU_8GB" "cloud" =
      .error "Invalid input parameter: cloud is not a valid DeploymentMode" ∧
    calculate "7B" 0 1 "GPU_8GB" "local" = .error "Tokens must be positive" ∧
    calculate "7B" 100 0 "GPU_8GB" "local" = .error "Batch size must be positive" := by
  refine ⟨?_, rfl, rfl, rfl, rfl, rfl⟩
  match hm : parseModelSize m with
  | none => simp [calculate, hm, Except.isOk, Except.toBool]
  | some me =>
  match hh : parseHardwareType h with
  | none => simp [calculate, hm, hh, Except.isOk, Except.toBool]
  | some he =>
  match hd : parseDeploymentMode d with
  | none => simp [calculate, hm, hh, hd, Except.isOk, Except.toBool]
  | some de =>
  by_cases ht0 : t ≤ 0
  · simp [calculate, hm, hh, hd, ht0, Except.isOk, Except.toBool]
  · by_cases hb0 : b ≤ 0
    · simp [calculate, hm, hh, hd, ht0, hb0, Except.isOk, Except.toBool]
    · simp [calculate, hm, hh, hd, ht0, hb0, Except.isOk, Except.toBool]
      omega

/-- C8: the recommendations are exactly the seven independent rules of the
spec, evaluated in fixed order with their mode guards, each appending its
string when its condition holds. -/
theorem c8_recommendation_rules (ms : ModelSize) (t b : ℤ) (ht : HardwareType)
    (dm : DeploymentMode) :
    generate_recommendations ms t b ht dm = recommendationRules ms t b ht dm := by
  cases dm <;>
    cases hc : check_hardware_compatibility ms ht <;>
      simp [generate_recommendations, recommendationRules, hc]

lemma calculate_latency_pos (ms : ModelSize) (t b : ℤ) (ht : HardwareType)
    (dm : DeploymentMode) (htp : 0 < t) : 0 < calculate_latency ms t b ht dm := by
  have htQ : (0 : ℚ) < (t : ℚ) := by exact_mod_cast htp
  cases dm
  · cases ms <;> cases ht <;>
      simp only [calculate_latency, performance_baselines] <;> linarith
  · simp only [calculate_latency]
    linarith

lemma calculate_memory_usage_nonneg (ms : ModelSize) (t b : ℤ)
    (ht : HardwareType) (htp : 0 < t) (hb : 0 < b) :
    0 ≤ calculate_memory_usage ms t b ht := by
  have htQ : (0 : ℚ) < (t : ℚ) := by exact_mod_cast htp
  have hbQ : (0 : ℚ) < (b : ℚ) := by exact_mod_cast hb
  have hmin : 0 < min t (model_specs ms).context_length := by
    cases ms <;> simp only [model_specs] <;> omega
  have hminQ : (0 : ℚ) < ((min t (model_specs ms).context_length : ℤ) : ℚ) := by
    exact_mod_cast hmin
  cases ms <;> simp only [calculate_memory_usage, model_specs] at hminQ ⊢ <;>
    nlinarith [mul_pos hminQ hbQ]

lemma calculate_cost_nonneg (ms : ModelSize) (t b : ℤ) (ht : HardwareType)
    (dm : DeploymentMode) (htp : 0 < t) : 0 ≤ calculate_cost ms t b ht dm := by
  have htQ : (0 : ℚ) < (t : ℚ) := by exact_mod_cast htp
  cases dm
  · cases ms <;> cases ht <;>
      simp only [calculate_cost, calculate_latency, performance_baselines,
        hardware_specs] <;> linarith
  · cases ms <;> simp only [calculate_cost, api_pricing] <;> linarith

/-- C9: every successful `calculate` result has strictly positive latency,
nonnegative memory usage and nonnegative cost. -/
theorem c9_result_bounds (m : String) (t b : ℤ) (h d : String) (r : CalculationResult)
    (hr : calculate m t b h d = .ok r) :
    0 < r.latency_seconds ∧ 0 ≤ r.memory_usage_gb ∧
      0 ≤ r.cost_per_request_usd := by
  match hm : parseModelSize m with
  | none => simp [calculate, hm] at hr
  | some me =>
  match hh : parseHardwareType h with
  | none => simp [calculate, hm, hh] at hr
  | some he =>
  match hd : parseDeploymentMode d with
  | none => simp [calculate, hm, hh, hd] at hr
  | some de =>
  by_cases ht0 : t ≤ 0
  · simp [calculate, hm, hh, hd, ht0] at hr
  · by_cases hb0 : b ≤ 0
    · simp [calculate, hm, hh, hd, ht0, hb0] at hr
    · have htp : 0 < t := by omega
      have hbp : 0 < b := by omega
      have hre : r = ⟨calculate_latency me t b he de, calculate_memory_usage me t b he,
          calculate_cost me t b he de, check_hardware_compatibility me he,
          generate_recommendations me t b he de⟩ := by
        simp [calculate, hm, hh, hd, ht0, hb0] at hr
        exact hr.symm
      subst hre
      exact ⟨calculate_latency_pos me t b he de htp,
        calculate_memory_usage_nonneg me t b he htp hbp,
        calculate_cost_nonneg me t b he de htp⟩

/-- Witness for C9 at `calculate("7B", 1, 1, "CPU", "local")`. -/
theorem c9_result_bounds_witness :
    0 < (⟨11/30, 188209269/10485760, 368951/118260000000, true, []⟩ :
        CalculationResult).latency_seconds ∧
    0 ≤ (⟨11/30, 188209269/10485760, 368951/118260000000, true, []⟩ :
        CalculationResult).memory_usage_gb ∧
    0 ≤ (⟨11/30, 188209269/10485760, 368951/118260000000, true, []⟩ :
        CalculationResult).cost_per_request_usd :=
  c9_result_bounds "7B" 1 1 "CPU" "local"
    ⟨11/30, 188209269/10485760, 368951/118260000000, true, []⟩ (by
      simp [calculate, parseModelSize, parseHardwareType, parseDeploymentMode,
        calculate_latency, calculate_memory_usage, calculate_cost,
        check_hardware_compatibility, generate_recommendations, model_specs,
        hardware_specs, performance_baselines]
      norm_num)

/-- C10: in API mode the hardware argument still matters: the result carries
the full memory formula at the tokens of the caller and batch size (the same value
a LOCAL call reports) and the compatibility of the supplied hardware, so two
API calls differing only in hardware can differ in `hardware_compatible`. -/
theorem c10_api_hardware_effect (m h : String) (t b : ℤ) (ms : ModelSize)
    (ht : HardwareType) (hm : parseModelSize m = some ms)
    (hh : parseHardwareType h = some ht) (htp : 0 < t) (hb : 0 < b) :
    calculate m t b h "api" =
      .ok ⟨calculate_latency ms t b ht .API, calculate_memory_usage ms t b ht,
        calculate_cost ms t b ht .API, check_hardware_compatibility ms ht,
        generate_recommendations ms t b ht .API⟩ ∧
    (calculate m t b h "api").map CalculationResult.memory_usage_gb =
      (calculate m t b h "local").map CalculationResult.memory_usage_gb ∧
    (calculate "7B" 100 1 "CPU" "api").map CalculationResult.hardware_compatible ≠
      (calculate "7B" 100 1 "GPU_8GB" "api").map CalculationResult.hardware_compatible := by
  refine ⟨?_, ?_, ?_⟩
  · simp [calculate, hm, hh, parseDeploymentMode,
      show ¬(t ≤ 0) by omega, show ¬(b ≤ 0) by omega]
  · simp [calculate, hm, hh, parseDeploymentMode, Except.map,
      show ¬(t ≤ 0) by omega, show ¬(b ≤ 0) by omega]
  · simp [calculate, parseModelSize, parseHardwareType, parseDeploymentMode,
      Except.map, check_hardware_compatibility, calculate_memory_usage,
      model_specs, hardware_specs]
    norm_num

/-- Witness for C10 at model 7B, 1000 tokens, batch size 2, GPU_16GB. -/
theorem c10_api_hardware_effect_witness :
    calculate "7B" 1000 2 "GPU_16GB" "api" =
      .ok ⟨calculate_latency .SEVEN_B 1000 2 .GPU_16GB .API,
        calculate_memory_usage .SEVEN_B 1000 2 .GPU_16GB,
        calculate_cost .SEVEN_B 1000 2 .GPU_16GB .API,
        check_hardware_compatibility .SEVEN_B .GPU_16GB,
        generate_recommendations .SEVEN_B 1000 2 .GPU_16GB .API⟩ ∧
    (calculate "7B" 1000 2 "GPU_16GB" "api").map CalculationResult.memory_usage_gb =
      (calculate "7B" 1000 2 "GPU_16GB" "local").map CalculationResult.memory_usage_gb ∧
    (calculate "7B" 100 1 "CPU" "api").map CalculationResult.hardware_compatible ≠
      (calculate "7B" 100 1 "GPU_8GB" "api").map CalculationResult.hardware_compatible :=
  c10_api_hardware_effect "7B" "GPU_16GB" 1000 2 .SEVEN_B .GPU_16GB
    rfl rfl (by decide) (by decide)

end LLMCalc
